import Mathlib

/-!
Verification of the screenshot-privacy-scanner redaction editor and
compositor.  The TypeScript sources are embedded shallowly: JavaScript
numbers are modelled as exact rationals, the canvas raster as a function
from pixel indices to colours, and the browser-supplied CSS filter
semantics as an explicit function parameter (the repository only builds
the filter string; its semantics live in the platform).
-/

namespace Scanner

/-- Severity levels, from `types.ts` (`enum RiskLevel`). -/
inductive RiskLevel where
  | HIGH
  | MEDIUM
  | LOW
  | SAFE
deriving DecidableEq, Repr

/-- Normalized bounding box, from `types.ts` (`interface BoundingBox`):
four scalars on the fixed 0–1000 scale. -/
structure BoundingBox where
  ymin : ℚ
  xmin : ℚ
  ymax : ℚ
  xmax : ℚ
deriving DecidableEq, Repr

/-- A risk region, from `types.ts` (`interface RiskItem`).  `box_2d` is
optional (`BoundingBox | null`), `customText` is the optional overlay
label. -/
structure RiskItem where
  id : String
  type : String
  description : String
  riskLevel : RiskLevel
  box_2d : Option BoundingBox
  isHidden : Bool
  isRedacted : Bool
  customText : Option String
deriving DecidableEq, Repr

/-- Filter configuration, from `types.ts` (`interface ImageFilters`). -/
structure ImageFilters where
  grayscale : ℚ
  sepia : ℚ
  brightness : ℚ
  contrast : ℚ
  blur : ℚ
deriving DecidableEq, Repr

/-- The neutral configuration installed by `App.tsx` and by
`resetFilters` in `ImageViewer.tsx`. -/
def defaultFilters : ImageFilters :=
  { grayscale := 0, sepia := 0, brightness := 100, contrast := 100, blur := 0 }

/-! ## Geometry: `ImageViewer.tsx` helpers -/

/-- A normalized point on the 0–1000 scale. -/
structure NormPoint where
  x : ℚ
  y : ℚ
deriving DecidableEq, Repr

/-- The helper `getNormalizedPoint` from `ImageViewer.tsx`: maps a pointer position
against the container's bounding rectangle into the normalized space,
clamping to `[0, 1000]` on both axes. -/
def getNormalizedPoint (clientX clientY rectLeft rectTop rectWidth rectHeight : ℚ) :
    NormPoint :=
  { x := max 0 (min 1000 ((clientX - rectLeft) / rectWidth * 1000)),
    y := max 0 (min 1000 ((clientY - rectTop) / rectHeight * 1000)) }

/-! ## Interaction handlers: `ImageViewer.tsx` pointer logic -/

/-- The box built by `handlePointerUp` while `DRAWING`: componentwise
min/max of the start and current points. -/
def drawingBox (startX startY currentX currentY : ℚ) : BoundingBox :=
  { xmin := min startX currentX,
    xmax := max startX currentX,
    ymin := min startY currentY,
    ymax := max startY currentY }

/-- The risk appended by `handleAddRisk` in `App.tsx` for a user-drawn
box (the id is `custom-<timestamp>` in the source; the timestamp part is
a parameter here). -/
def mkCustomRisk (id' : String) (box : BoundingBox) : RiskItem :=
  { id := id', type := "Custom Risk", description := "Manual redaction",
    riskLevel := RiskLevel.HIGH, box_2d := some box,
    isHidden := false, isRedacted := true, customText := none }

/-- Pointer-up while `DRAWING` (`handlePointerUp` in `ImageViewer.tsx`
composed with `handleAddRisk` in `App.tsx`): the region list after the
gesture. A region is appended only when both extents exceed 10. -/
def handleDrawingPointerUp (id' : String) (startX startY currentX currentY : ℚ)
    (risks : List RiskItem) : List RiskItem :=
  let b := drawingBox startX startY currentX currentY
  if 10 < b.xmax - b.xmin ∧ 10 < b.ymax - b.ymin then
    risks ++ [mkCustomRisk id' b]
  else
    risks

/-- Pointer-move while `MOVING` (`handlePointerMove` in
`ImageViewer.tsx`): the normalized delta from the raw screen
displacement is added to all four edges of the snapshot box. -/
def moveBox (initialBox : BoundingBox) (startX startY clientX clientY rectWidth rectHeight : ℚ) :
    BoundingBox :=
  let deltaX := (clientX - startX) / rectWidth * 1000
  let deltaY := (clientY - startY) / rectHeight * 1000
  { xmin := initialBox.xmin + deltaX,
    xmax := initialBox.xmax + deltaX,
    ymin := initialBox.ymin + deltaY,
    ymax := initialBox.ymax + deltaY }

/-- Pointer-move while `RESIZING` (`handlePointerMove` in
`ImageViewer.tsx`): the delta is applied to the edges named by the
handle characters, then the minimum-extent clamp pushes the max edge. -/
def resizeBox (initialBox : BoundingBox) (handle : String)
    (startX startY clientX clientY rectWidth rectHeight : ℚ) : BoundingBox :=
  let deltaX := (clientX - startX) / rectWidth * 1000
  let deltaY := (clientY - startY) / rectHeight * 1000
  let xmin := if handle.contains 'l' then initialBox.xmin + deltaX else initialBox.xmin
  let xmax := if handle.contains 'r' then initialBox.xmax + deltaX else initialBox.xmax
  let ymin := if handle.contains 't' then initialBox.ymin + deltaY else initialBox.ymin
  let ymax := if handle.contains 'b' then initialBox.ymax + deltaY else initialBox.ymax
  let xmax := if xmax < xmin + 10 then xmin + 10 else xmax
  let ymax := if ymax < ymin + 10 then ymin + 10 else ymax
  { ymin := ymin, xmin := xmin, ymax := ymax, xmax := xmax }

/-! ## Region store operations: `App.tsx` handlers -/

/-- The handler `handleDeleteRisk` in `App.tsx`: filter out the region with the
given id. -/
def removeRisk (id' : String) (risks : List RiskItem) : List RiskItem :=
  risks.filter (fun r => r.id ≠ id')

/-- The handler `handleUpdateRisk` in `App.tsx`: replace the box of the region with
the given id, leaving all other regions untouched. -/
def updateRiskBox (id' : String) (box : BoundingBox) (risks : List RiskItem) :
    List RiskItem :=
  risks.map (fun r => if r.id = id' then { r with box_2d := some box } else r)

/-- The handler `handleUpdateRiskText` in `App.tsx`. -/
def updateRiskText (id' : String) (text : String) (risks : List RiskItem) :
    List RiskItem :=
  risks.map (fun r => if r.id = id' then { r with customText := some text } else r)

/-- The handler `handleUpdateRiskDetails` in `App.tsx`. -/
def updateRiskDetails (id' : String) (type' description' : String)
    (risks : List RiskItem) : List RiskItem :=
  risks.map (fun r =>
    if r.id = id' then { r with type := type', description := description' } else r)

/-! ## Compositor: `canvasUtils.ts` (`downloadRedactedImage`)

The canvas is modelled as a function from pixel indices to colours.  The
source sets `ctx.filter` to the configured CSS string, draws the source
image, resets the filter to `none`, and then paints the redaction fills
and labels; the CSS filter semantics and the glyph rasterizer are
platform code, passed in as explicit function parameters. -/

/-- An RGBA colour with rational channels. -/
structure Color where
  r : ℚ
  g : ℚ
  b : ℚ
  a : ℚ
deriving DecidableEq, Repr

/-- The fill colour black (hex 000000): opaque black. -/
def black : Color := { r := 0, g := 0, b := 0, a := 255 }

/-- The fill colour white (hex ffffff): opaque white. -/
def white : Color := { r := 255, g := 255, b := 255, a := 255 }

/-- A raster: colour of each pixel index. -/
def Image : Type := ℕ → ℕ → Color

/-- Semantics of drawing the source image through the configured
CSS filter (the `ctx.filter = filterString; ctx.drawImage(...)` step):
supplied by the platform, hence a parameter of the compositor model. -/
def FilterSem : Type := ImageFilters → Image → Image

/-- Semantics of `ctx.fillText(text, cx, cy, maxWidth)` with
`bold <fontSize>px sans-serif`, centre alignment and middle baseline:
the glyph coverage mask, supplied by the platform.  Arguments: text,
font size, centre x, centre y, max width, pixel column, pixel row. -/
def TextSem : Type := String → ℚ → ℚ → ℚ → ℚ → ℕ → ℕ → Bool

/-- Pixel-rectangle membership for `ctx.fillRect(x, y, w, h)`: the unit
pixel cell `[i, i+1) × [j, j+1)` lies inside the filled rectangle. -/
def coversPx (x y w h : ℚ) (i j : ℕ) : Prop :=
  x ≤ (i : ℚ) ∧ (i : ℚ) + 1 ≤ x + w ∧ y ≤ (j : ℚ) ∧ (j : ℚ) + 1 ≤ y + h

instance (x y w h : ℚ) (i j : ℕ) : Decidable (coversPx x y w h i j) := by
  unfold coversPx; infer_instance

/-- The colour a single risk leaves at pixel `(i, j)` given the colour
`c` already on the canvas there (`risks.forEach` body in
`downloadRedactedImage`): redacted boxed risks get an opaque black
`fillRect` over the scaled rectangle, then a white label via `fillText`
when `customText` is truthy (a non-empty string). -/
def paintRiskPx (T : TextSem) (cw ch : ℕ) (risk : RiskItem) (i j : ℕ) (c : Color) :
    Color :=
  match risk.box_2d with
  | none => c
  | some b =>
    if risk.isRedacted then
      let x := b.xmin / 1000 * (cw : ℚ)
      let y := b.ymin / 1000 * (ch : ℚ)
      let w := (b.xmax - b.xmin) / 1000 * (cw : ℚ)
      let h := (b.ymax - b.ymin) / 1000 * (ch : ℚ)
      let afterFill := if coversPx x y w h i j then black else c
      match risk.customText with
      | none => afterFill
      | some t =>
        if t ≠ "" then
          let fontSize := max 10 (min (h * 0.5) 24)
          if T t fontSize (x + w / 2) (y + h / 2) w i j then white else afterFill
        else afterFill
    else c

/-- One risk painted over a whole raster. -/
def paintRisk (T : TextSem) (cw ch : ℕ) (risk : RiskItem) (img : Image) : Image :=
  fun i j => paintRiskPx T cw ch risk i j (img i j)

/-- All risks painted in store order (`risks.forEach`): earlier list
entries are painted first, later ones occlude them. -/
def paintRisks (T : TextSem) (cw ch : ℕ) (risks : List RiskItem) (img : Image) :
    Image :=
  risks.foldl (fun acc risk => paintRisk T cw ch risk acc) img

/-- The raster assembled by `downloadRedactedImage` once the 2D context
is available: the source drawn through the filter, then the redactions
painted with the filter reset. -/
def renderRedacted (F : FilterSem) (T : TextSem) (src : Image) (cw ch : ℕ)
    (risks : List RiskItem) (filters : ImageFilters) : Image :=
  paintRisks T cw ch risks (F filters src)

/-- Outcome of the export path (`img.onload` body): `getContext("2d")`
returning null makes the function return at once — no raster, no
download link, no success callback and no error report. -/
inductive ExportOutcome where
  | aborted
  | exported (raster : Image)
  | reportedError (msg : String)

/-- Returns `true` exactly on the `reportedError` outcome. -/
def ExportOutcome.isReported : ExportOutcome → Bool
  | ExportOutcome.reportedError _ => true
  | _ => false

/-- Returns `true` exactly on the `exported` outcome (file produced and
`onSuccess` invoked). -/
def ExportOutcome.isExported : ExportOutcome → Bool
  | ExportOutcome.exported _ => true
  | _ => false

/-- The body of `onload` in `downloadRedactedImage`: `ctxOk` is whether
`canvas.getContext("2d")` succeeded (`if (!ctx) return;`). -/
def exportRedacted (F : FilterSem) (T : TextSem) (ctxOk : Bool) (src : Image)
    (cw ch : ℕ) (risks : List RiskItem) (filters : ImageFilters) : ExportOutcome :=
  if ctxOk then
    ExportOutcome.exported (renderRedacted F T src cw ch risks filters)
  else
    ExportOutcome.aborted

/-! ## Detection-result ingestion: `geminiService.ts` (`analyzeScreenshot`) -/

/-- A parsed JSON value, as produced by `JSON.parse` on the detection
response (`undefined` for a missing field behaves like `null` for every
test the ingestion performs). -/
inductive Json where
  | null
  | num (q : ℚ)
  | str (s : String)
  | bool (b : Bool)
  | arr (elems : List Json)
deriving Repr

/-- The test `Array.isArray(v) && v.length === 4`, the only well-formedness test
the ingestion applies to `box_2d`. -/
def isFourElemArray : Json → Bool
  | Json.arr l => l.length == 4
  | _ => false

/-- JavaScript `Number.isInteger`-style test on a JSON value. -/
def Json.isInt : Json → Bool
  | Json.num q => q.den == 1
  | _ => false

/-- Exactly four integers: an array of length 4 whose elements are
all integral numbers — the shape the detection contract promises. -/
def isFourIntBox (j : Json) : Bool :=
  match j with
  | Json.arr l => l.length == 4 && l.all Json.isInt
  | _ => false

/-- The `box_2d` conversion in `analyzeScreenshot`:
`Array.isArray(risk.box_2d) && risk.box_2d.length === 4` yields the
object `{ymin: v[0], xmin: v[1], ymax: v[2], xmax: v[3]}`, anything
else yields `null`.  The four components are returned in
(ymin, xmin, ymax, xmax) order. -/
def ingestBox : Json → Option (Json × Json × Json × Json)
  | Json.arr [a, b, c, d] => some (a, b, c, d)
  | _ => none

/-- A raw risk entry of the parsed detection payload. -/
structure RawRisk where
  type : Json
  description : Json
  riskLevel : Json
  box_2d : Json

/-- An ingested risk entry (the object built by the `.map` in
`analyzeScreenshot`). -/
structure IngestedRisk where
  id : String
  type : Json
  description : Json
  riskLevel : Json
  box : Option (Json × Json × Json × Json)
  isRedacted : Bool
  isHidden : Bool

/-- The test `risk.riskLevel === "HIGH"` (string equality). -/
def Json.isHigh : Json → Bool
  | Json.str s => s == "HIGH"
  | _ => false

/-- One entry of the ingestion `.map`: ids are assigned on ingestion
(`risk-<index>-<timestamp>`), `box_2d` is converted, HIGH risks are
auto-redacted and nothing is hidden. -/
def ingestRisk (id' : String) (r : RawRisk) : IngestedRisk :=
  { id := id', type := r.type, description := r.description,
    riskLevel := r.riskLevel, box := ingestBox r.box_2d,
    isRedacted := r.riskLevel.isHigh, isHidden := false }

/-- The ingestion `.map` over `data.risks`, threading the index used in
the generated id. -/
def ingestRisks (now : String) : ℕ → List RawRisk → List IngestedRisk
  | _, [] => []
  | i, r :: rest =>
    ingestRisk ("risk-" ++ toString i ++ "-" ++ now) r :: ingestRisks now (i + 1) rest

/-! ## Derived predicates -/

/-- Membership in the normalized coordinate range `[0, 1000]`. -/
def inNormRange (q : ℚ) : Prop := 0 ≤ q ∧ q ≤ 1000

/-- All four box coordinates lie in `[0, 1000]`. -/
def boxInNormRange (b : BoundingBox) : Prop :=
  inNormRange b.xmin ∧ inNormRange b.xmax ∧ inNormRange b.ymin ∧ inNormRange b.ymax

/-! ## Theorems -/

/-- C4: every pointer-move while `Moving` writes a box whose width and
height equal those of the snapshot exactly, for every pointer displacement and
every surface size (the same delta is added to all four edges). -/
theorem moving_preserves_extent (b : BoundingBox)
    (startX startY clientX clientY rectWidth rectHeight : ℚ) :
    (moveBox b startX startY clientX clientY rectWidth rectHeight).xmax -
        (moveBox b startX startY clientX clientY rectWidth rectHeight).xmin =
      b.xmax - b.xmin ∧
    (moveBox b startX startY clientX clientY rectWidth rectHeight).ymax -
        (moveBox b startX startY clientX clientY rectWidth rectHeight).ymin =
      b.ymax - b.ymin := by
  constructor <;> · simp only [moveBox]; ring

/-- C5: starting from a snapshot box with both extents at least 10, the
box written by any move pointer-move again has both extents at least 10
(translation preserves them), and the box written by any resize
pointer-move has both extents at least 10 (the minimum-extent clamp
pushes the max edge). -/
theorem edit_preserves_min_extent (b : BoundingBox) (handle : String)
    (startX startY clientX clientY rectWidth rectHeight : ℚ)
    (hw : 10 ≤ b.xmax - b.xmin) (hh : 10 ≤ b.ymax - b.ymin) :
    (10 ≤ (moveBox b startX startY clientX clientY rectWidth rectHeight).xmax -
        (moveBox b startX startY clientX clientY rectWidth rectHeight).xmin ∧
      10 ≤ (moveBox b startX startY clientX clientY rectWidth rectHeight).ymax -
        (moveBox b startX startY clientX clientY rectWidth rectHeight).ymin) ∧
    (10 ≤ (resizeBox b handle startX startY clientX clientY rectWidth rectHeight).xmax -
        (resizeBox b handle startX startY clientX clientY rectWidth rectHeight).xmin ∧
      10 ≤ (resizeBox b handle startX startY clientX clientY rectWidth rectHeight).ymax -
        (resizeBox b handle startX startY clientX clientY rectWidth rectHeight).ymin) := by
  refine ⟨⟨?_, ?_⟩, ?_, ?_⟩ <;> simp only [moveBox, resizeBox] <;> (try split_ifs) <;> linarith

/-- C5 witness: a concrete 20×20 snapshot, moved and resized. -/
theorem edit_preserves_min_extent_witness :
    (10 ≤ (moveBox { ymin := 0, xmin := 0, ymax := 20, xmax := 20 } 0 0 5 5 1000 1000).xmax -
        (moveBox { ymin := 0, xmin := 0, ymax := 20, xmax := 20 } 0 0 5 5 1000 1000).xmin ∧
      10 ≤ (moveBox { ymin := 0, xmin := 0, ymax := 20, xmax := 20 } 0 0 5 5 1000 1000).ymax -
        (moveBox { ymin := 0, xmin := 0, ymax := 20, xmax := 20 } 0 0 5 5 1000 1000).ymin) ∧
    (10 ≤ (resizeBox { ymin := 0, xmin := 0, ymax := 20, xmax := 20 } "br" 0 0 5 5 1000 1000).xmax -
        (resizeBox { ymin := 0, xmin := 0, ymax := 20, xmax := 20 } "br" 0 0 5 5 1000 1000).xmin ∧
      10 ≤ (resizeBox { ymin := 0, xmin := 0, ymax := 20, xmax := 20 } "br" 0 0 5 5 1000 1000).ymax -
        (resizeBox { ymin := 0, xmin := 0, ymax := 20, xmax := 20 } "br" 0 0 5 5 1000 1000).ymin) :=
  edit_preserves_min_extent { ymin := 0, xmin := 0, ymax := 20, xmax := 20 } "br"
    0 0 5 5 1000 1000 (by norm_num) (by norm_num)

/-- C3: pointer-up while `Drawing` adds no region when the normalized
box has width or height at most 10, and otherwise appends exactly one
region with label "Custom Risk", severity HIGH, redacted, not hidden,
and the normalized box. -/
theorem drawing_pointer_up_spec (id' : String) (startX startY currentX currentY : ℚ)
    (risks : List RiskItem) :
    ((drawingBox startX startY currentX currentY).xmax -
          (drawingBox startX startY currentX currentY).xmin ≤ 10 ∨
        (drawingBox startX startY currentX currentY).ymax -
          (drawingBox startX startY currentX currentY).ymin ≤ 10 →
      handleDrawingPointerUp id' startX startY currentX currentY risks = risks) ∧
    (10 < (drawingBox startX startY currentX currentY).xmax -
        (drawingBox startX startY currentX currentY).xmin →
      10 < (drawingBox startX startY currentX currentY).ymax -
        (drawingBox startX startY currentX currentY).ymin →
      handleDrawingPointerUp id' startX startY currentX currentY risks =
        risks ++ [{ id := id', type := "Custom Risk", description := "Manual redaction",
                    riskLevel := RiskLevel.HIGH,
                    box_2d := some (drawingBox startX startY currentX currentY),
                    isHidden := false, isRedacted := true, customText := none }]) := by
  constructor
  · intro h
    simp only [handleDrawingPointerUp]
    rw [if_neg]
    rintro ⟨h1, h2⟩
    rcases h with h | h <;> linarith
  · intro h1 h2
    simp only [handleDrawingPointerUp]
    rw [if_pos ⟨h1, h2⟩]
    rfl

/-- C3 witness: a 5×5 drag is a no-op, a 50×50 drag appends the custom
region. -/
theorem drawing_pointer_up_spec_witness :
    handleDrawingPointerUp "custom-1" 0 0 5 5 [] = [] ∧
    handleDrawingPointerUp "custom-1" 0 0 50 50 [] =
      [{ id := "custom-1", type := "Custom Risk", description := "Manual redaction",
         riskLevel := RiskLevel.HIGH, box_2d := some (drawingBox 0 0 50 50),
         isHidden := false, isRedacted := true, customText := none }] :=
  ⟨(drawing_pointer_up_spec "custom-1" 0 0 5 5 []).1
      (Or.inl (by norm_num [drawingBox])),
    (drawing_pointer_up_spec "custom-1" 0 0 50 50 []).2
      (by norm_num [drawingBox]) (by norm_num [drawingBox])⟩

/-- Updating a region whose id is absent from a list leaves the list
unchanged: the conditional rewrite inside the `map` never fires on the
survivors of the `filter`. -/
theorem map_ite_on_removed (id' : String) (f : RiskItem → RiskItem)
    (risks : List RiskItem) :
    (risks.filter (fun r => r.id ≠ id')).map
        (fun r => if r.id = id' then f r else r) =
      risks.filter (fun r => r.id ≠ id') := by
  induction risks with
  | nil => rfl
  | cons r rest ih =>
    by_cases h : r.id = id'
    · simpa [List.filter_cons, h] using ih
    · simpa [List.filter_cons, h] using ih

/-- C7: for every store state and id, removing a region and then
updating that id (box, overlay text, or type/description) yields exactly
the removed state — the update on a non-existent id is a silent no-op. -/
theorem update_after_remove_noop (id' : String) (box : BoundingBox)
    (text type' descr : String) (risks : List RiskItem) :
    updateRiskBox id' box (removeRisk id' risks) = removeRisk id' risks ∧
    updateRiskText id' text (removeRisk id' risks) = removeRisk id' risks ∧
    updateRiskDetails id' type' descr (removeRisk id' risks) = removeRisk id' risks := by
  refine ⟨?_, ?_, ?_⟩ <;>
    exact map_ite_on_removed id' _ risks

/-- The claim C6 states is false: while `Moving`, the delta computed
from raw screen coordinates is applied without clamping, so a concrete
in-bounds box is written with `xmin = -500`, outside `[0, 1000]`. -/
theorem moving_escapes_bounds_cex :
    (moveBox { ymin := 100, xmin := 0, ymax := 200, xmax := 100 }
        500 500 0 500 1000 1000).xmin = -500 ∧
    ¬ boxInNormRange
        (moveBox { ymin := 100, xmin := 0, ymax := 200, xmax := 100 }
          500 500 0 500 1000 1000) := by
  constructor
  · norm_num [moveBox]
  · intro h
    have hx := h.1.1
    norm_num [moveBox] at hx

/-- C6 (amended): pointer positions are mapped to normalized points
clamped to `[0, 1000]` on both axes, so boxes created by the drawing
interaction (whose corners come from clamped points) lie entirely within
the normalized bounds; move and resize apply unclamped deltas. -/
theorem clamped_points_bound_drawn_boxes :
    (∀ clientX clientY rectLeft rectTop rectWidth rectHeight : ℚ,
      inNormRange
          (getNormalizedPoint clientX clientY rectLeft rectTop rectWidth rectHeight).x ∧
      inNormRange
          (getNormalizedPoint clientX clientY rectLeft rectTop rectWidth rectHeight).y) ∧
    (∀ startX startY currentX currentY : ℚ,
      inNormRange startX → inNormRange startY → inNormRange currentX →
      inNormRange currentY →
      boxInNormRange (drawingBox startX startY currentX currentY)) := by
  constructor
  · intro clientX clientY rectLeft rectTop rectWidth rectHeight
    constructor <;>
      exact ⟨le_max_left 0 _, max_le (by norm_num) (min_le_left _ _)⟩
  · rintro startX startY currentX currentY ⟨hs1, hs2⟩ ⟨ht1, ht2⟩ ⟨hc1, hc2⟩ ⟨hd1, hd2⟩
    simp only [boxInNormRange, inNormRange, drawingBox, le_min_iff, min_le_iff,
      le_max_iff, max_le_iff]
    tauto

/-- C6 (amended) witness: a concrete clamped point and a concrete drawn
box, both in range. -/
theorem clamped_points_bound_drawn_boxes_witness :
    inNormRange (getNormalizedPoint 5 5 0 0 100 100).x ∧
    boxInNormRange (drawingBox 0 0 50 50) :=
  ⟨(clamped_points_bound_drawn_boxes.1 5 5 0 0 100 100).1,
    clamped_points_bound_drawn_boxes.2 0 0 50 50
      (by norm_num [inNormRange]) (by norm_num [inNormRange])
      (by norm_num [inNormRange]) (by norm_num [inNormRange])⟩

/-! ## Compositor theorems -/

/-- A risk is redacted, has a box, and the scaled pixel rectangle of that box
covers pixel `(i, j)` on a `cw × ch` canvas. -/
def redactedCovers (cw ch : ℕ) (r : RiskItem) (i j : ℕ) : Prop :=
  r.isRedacted = true ∧ ∃ b, r.box_2d = some b ∧
    coversPx (b.xmin / 1000 * (cw : ℚ)) (b.ymin / 1000 * (ch : ℚ))
      ((b.xmax - b.xmin) / 1000 * (cw : ℚ)) ((b.ymax - b.ymin) / 1000 * (ch : ℚ)) i j

/-- Unfolding `paintRisks` over a cons cell. -/
theorem paintRisks_cons (T : TextSem) (cw ch : ℕ) (r : RiskItem)
    (rest : List RiskItem) (img : Image) :
    paintRisks T cw ch (r :: rest) img =
      paintRisks T cw ch rest (paintRisk T cw ch r img) := rfl

/-- Painting is pointwise: rasters agreeing at a pixel still agree there
after the whole risk list is painted. -/
theorem paintRisks_agree_at (T : TextSem) (cw ch : ℕ) (risks : List RiskItem)
    (img1 img2 : Image) (i j : ℕ) (h : img1 i j = img2 i j) :
    paintRisks T cw ch risks img1 i j = paintRisks T cw ch risks img2 i j := by
  induction risks generalizing img1 img2 with
  | nil => exact h
  | cons r rest ih =>
    rw [paintRisks_cons, paintRisks_cons]
    exact ih (paintRisk T cw ch r img1) (paintRisk T cw ch r img2)
      (by simp only [paintRisk, h])

/-- At a pixel its rectangle covers, a redacted risk paints the same
colour whatever was underneath. -/
theorem paintRiskPx_covered (T : TextSem) (cw ch : ℕ) (r : RiskItem) (i j : ℕ)
    (h : redactedCovers cw ch r i j) (c1 c2 : Color) :
    paintRiskPx T cw ch r i j c1 = paintRiskPx T cw ch r i j c2 := by
  obtain ⟨hred, b, hbox, hcov⟩ := h
  simp only [paintRiskPx, hbox, hred, if_true, if_pos hcov]

/-- At a pixel covered by some redacted boxed risk of the list, the
painted raster does not depend on the underlying image. -/
theorem paintRisks_covered_agree (T : TextSem) (cw ch : ℕ) (risks : List RiskItem)
    (img1 img2 : Image) (i j : ℕ) (h : ∃ r ∈ risks, redactedCovers cw ch r i j) :
    paintRisks T cw ch risks img1 i j = paintRisks T cw ch risks img2 i j := by
  induction risks generalizing img1 img2 with
  | nil =>
    obtain ⟨r, hr, _⟩ := h
    exact absurd hr (List.not_mem_nil r)
  | cons r rest ih =>
    obtain ⟨r', hr', hcov⟩ := h
    rw [paintRisks_cons, paintRisks_cons]
    rcases List.mem_cons.mp hr' with rfl | hmem
    · exact paintRisks_agree_at T cw ch rest _ _ i j
        (paintRiskPx_covered T cw ch r' i j hcov (img1 i j) (img2 i j))
    · exact ih _ _ ⟨r', hmem, hcov⟩

/-- C2: for every source image and risk list and any two filter
configurations, the exported rasters agree on every pixel covered by the
rectangle of a redacted region — the fill and label are drawn with the
filter reset, so redaction content is never affected by the filters. -/
theorem redaction_filter_independent (F : FilterSem) (T : TextSem) (src : Image)
    (cw ch : ℕ) (risks : List RiskItem) (f1 f2 : ImageFilters) (i j : ℕ)
    (h : ∃ r ∈ risks, redactedCovers cw ch r i j) :
    renderRedacted F T src cw ch risks f1 i j =
      renderRedacted F T src cw ch risks f2 i j :=
  paintRisks_covered_agree T cw ch risks (F f1 src) (F f2 src) i j h

/-- The compositor-scenario region of C1: box `xmin 100, ymin 100,
xmax 300, ymax 200`, redacted, no overlay label. -/
def scenarioRisk : RiskItem :=
  { id := "risk-0", type := "Email", description := "found an address",
    riskLevel := RiskLevel.HIGH,
    box_2d := some { ymin := 100, xmin := 100, ymax := 200, xmax := 300 },
    isHidden := false, isRedacted := true, customText := none }

/-- C2 witness: the scenario list on a 1000×500 canvas at covered pixel
(150, 60), compared across the neutral and an extreme configuration. -/
theorem redaction_filter_independent_witness :
    renderRedacted (fun _ img => img) (fun _ _ _ _ _ _ _ => false) (fun _ _ => white)
        1000 500 [scenarioRisk] defaultFilters 150 60 =
      renderRedacted (fun _ img => img) (fun _ _ _ _ _ _ _ => false) (fun _ _ => white)
        1000 500 [scenarioRisk]
        { grayscale := 100, sepia := 100, brightness := 0, contrast := 0, blur := 20 }
        150 60 :=
  redaction_filter_independent (fun _ img => img) (fun _ _ _ _ _ _ _ => false)
    (fun _ _ => white) 1000 500 [scenarioRisk] defaultFilters
    { grayscale := 100, sepia := 100, brightness := 0, contrast := 0, blur := 20 }
    150 60
    ⟨scenarioRisk, List.mem_singleton.mpr rfl, rfl,
      { ymin := 100, xmin := 100, ymax := 200, xmax := 300 }, rfl,
      by norm_num [coversPx]⟩

/-- The scenario rectangle, in pixel terms: on a 1000×500 canvas the
scaled fill parameters reduce to `fillRect(100, 50, 200, 50)`. -/
theorem coversPx_scenario (i j : ℕ) :
    coversPx (100 / 1000 * ((1000 : ℕ) : ℚ)) (100 / 1000 * ((500 : ℕ) : ℚ))
        ((300 - 100) / 1000 * ((1000 : ℕ) : ℚ)) ((200 - 100) / 1000 * ((500 : ℕ) : ℚ))
        i j ↔
      100 ≤ i ∧ i < 300 ∧ 50 ≤ j ∧ j < 100 := by
  unfold coversPx
  have e1 : (100 : ℚ) / 1000 * ((1000 : ℕ) : ℚ) = 100 := by norm_num
  have e2 : ((300 : ℚ) - 100) / 1000 * ((1000 : ℕ) : ℚ) = 200 := by norm_num
  have e3 : (100 : ℚ) / 1000 * ((500 : ℕ) : ℚ) = 50 := by norm_num
  have e4 : ((200 : ℚ) - 100) / 1000 * ((500 : ℕ) : ℚ) = 50 := by norm_num
  rw [e1, e2, e3, e4]
  constructor
  · rintro ⟨h1, h2, h3, h4⟩
    have c2 : i + 1 ≤ 300 := by exact_mod_cast (show (i : ℚ) + 1 ≤ 300 by linarith)
    have c4 : j + 1 ≤ 100 := by exact_mod_cast (show (j : ℚ) + 1 ≤ 100 by linarith)
    exact ⟨by exact_mod_cast h1, by omega, by exact_mod_cast h3, by omega⟩
  · rintro ⟨h1, h2, h3, h4⟩
    have c2 : (i : ℚ) + 1 ≤ 300 := by exact_mod_cast Nat.succ_le_of_lt h2
    have c4 : (j : ℚ) + 1 ≤ 100 := by exact_mod_cast Nat.succ_le_of_lt h4
    exact ⟨by exact_mod_cast h1, by linarith, by exact_mod_cast h3, by linarith⟩

/-- C1: for a 1000×500 source, the single scenario region and the
neutral filter configuration, every pixel of the export inside the
rectangle `x ∈ [100, 300), y ∈ [50, 100)` is opaque black and every
pixel outside it equals the unfiltered source pixel.  The platform
filter semantics is any function that is the identity at the neutral
configuration (CSS filters at their defaults have no effect). -/
theorem scenario_export_pixels (F : FilterSem) (T : TextSem) (src : Image)
    (hF : ∀ img, F defaultFilters img = img) (i j : ℕ) :
    renderRedacted F T src 1000 500 [scenarioRisk] defaultFilters i j =
      if 100 ≤ i ∧ i < 300 ∧ 50 ≤ j ∧ j < 100 then black else src i j := by
  have hsrc := hF src
  show paintRisks T 1000 500 [scenarioRisk] (F defaultFilters src) i j = _
  rw [hsrc]
  show paintRiskPx T 1000 500 scenarioRisk i j (src i j) = _
  simp only [paintRiskPx, scenarioRisk]
  rw [if_pos trivial]
  simp only [coversPx_scenario i j]

/-- C1 witness: a covered pixel is black, an uncovered pixel keeps the
source colour, on a concrete all-white source with identity filter
semantics. -/
theorem scenario_export_pixels_witness :
    renderRedacted (fun _ img => img) (fun _ _ _ _ _ _ _ => false) (fun _ _ => white)
        1000 500 [scenarioRisk] defaultFilters 150 60 = black ∧
    renderRedacted (fun _ img => img) (fun _ _ _ _ _ _ _ => false) (fun _ _ => white)
        1000 500 [scenarioRisk] defaultFilters 400 300 = white := by
  constructor
  · have h := scenario_export_pixels (fun _ img => img) (fun _ _ _ _ _ _ _ => false)
      (fun _ _ => white) (fun _ => rfl) 150 60
    rw [h]
    norm_num
  · have h := scenario_export_pixels (fun _ img => img) (fun _ _ _ _ _ _ _ => false)
      (fun _ _ => white) (fun _ => rfl) 400 300
    rw [h]
    norm_num

/-- Two risks equal in every field the compositor reads; only the
`isHidden` flag may differ. -/
def eqExceptHidden (r1 r2 : RiskItem) : Prop :=
  r1.id = r2.id ∧ r1.type = r2.type ∧ r1.description = r2.description ∧
  r1.riskLevel = r2.riskLevel ∧ r1.box_2d = r2.box_2d ∧
  r1.isRedacted = r2.isRedacted ∧ r1.customText = r2.customText

/-- The per-pixel paint of a risk never reads `isHidden`. -/
theorem paintRiskPx_ignores_hidden (T : TextSem) (cw ch : ℕ) (r1 r2 : RiskItem)
    (i j : ℕ) (c : Color) (h : eqExceptHidden r1 r2) :
    paintRiskPx T cw ch r1 i j c = paintRiskPx T cw ch r2 i j c := by
  obtain ⟨_, _, _, _, hbox, hred, htext⟩ := h
  simp only [paintRiskPx, hbox, hred, htext]

/-- Painting a whole list never reads `isHidden`. -/
theorem paintRisks_ignores_hidden (T : TextSem) (cw ch : ℕ)
    (risks1 risks2 : List RiskItem) (h : List.Forall₂ eqExceptHidden risks1 risks2)
    (img : Image) :
    paintRisks T cw ch risks1 img = paintRisks T cw ch risks2 img := by
  induction h generalizing img with
  | nil => rfl
  | @cons a b l1 l2 hr hrest ih =>
    rw [paintRisks_cons, paintRisks_cons]
    have hpaint : paintRisk T cw ch a img = paintRisk T cw ch b img := by
      funext i j
      exact paintRiskPx_ignores_hidden T cw ch a b i j (img i j) hr
    rw [hpaint]
    exact ih (paintRisk T cw ch b img)

/-- A risk that is not redacted, or has no box, paints nothing. -/
theorem paintRisk_noop (T : TextSem) (cw ch : ℕ) (r : RiskItem) (img : Image)
    (h : r.isRedacted = false ∨ r.box_2d = none) :
    paintRisk T cw ch r img = img := by
  funext i j
  rcases h with h | h
  · cases hbox : r.box_2d <;> simp [paintRisk, paintRiskPx, hbox, h]
  · simp [paintRisk, paintRiskPx, h]

/-- C10: the compositor paints a region only when it is redacted and
has a box — the `isHidden` flag plays no role, so two risk lists that
differ only in their hidden flags produce identical exports. -/
theorem export_ignores_hidden (F : FilterSem) (T : TextSem) (src : Image)
    (cw ch : ℕ) (filters : ImageFilters) (risks1 risks2 : List RiskItem)
    (h : List.Forall₂ eqExceptHidden risks1 risks2) :
    (∀ r img, r.isRedacted = false ∨ r.box_2d = none →
      paintRisk T cw ch r img = img) ∧
    renderRedacted F T src cw ch risks1 filters =
      renderRedacted F T src cw ch risks2 filters := by
  constructor
  · exact fun r img hr => paintRisk_noop T cw ch r img hr
  · exact paintRisks_ignores_hidden T cw ch risks1 risks2 h (F filters src)

/-- C10 witness: the scenario risk, hidden or not, exports the same
raster, and an unredacted risk paints nothing. -/
theorem export_ignores_hidden_witness :
    renderRedacted (fun _ img => img) (fun _ _ _ _ _ _ _ => false) (fun _ _ => white)
        1000 500 [scenarioRisk] defaultFilters =
      renderRedacted (fun _ img => img) (fun _ _ _ _ _ _ _ => false) (fun _ _ => white)
        1000 500 [{ scenarioRisk with isHidden := true }] defaultFilters :=
  (export_ignores_hidden (fun _ img => img) (fun _ _ _ _ _ _ _ => false)
    (fun _ _ => white) 1000 500 defaultFilters [scenarioRisk]
    [{ scenarioRisk with isHidden := true }]
    (List.Forall₂.cons ⟨rfl, rfl, rfl, rfl, rfl, rfl, rfl⟩ List.Forall₂.nil)).2

/-! ## Ingestion and export-failure theorems -/

/-- The claim C8 states is false: a `box_2d` that is an array of four
strings is not "exactly 4 integers", yet the ingestion keeps it as a
region box — the code only checks `Array.isArray` and `length === 4`,
never the element type. -/
theorem ingest_box_nonint_cex :
    isFourIntBox
        (Json.arr [Json.str "a", Json.str "b", Json.str "c", Json.str "d"]) = false ∧
    (ingestBox
        (Json.arr [Json.str "a", Json.str "b", Json.str "c", Json.str "d"])).isSome =
      true := by
  constructor <;> rfl

/-- C8 (amended): a `box_2d` that is not an array of exactly four
elements is ingested with no region box; an array of exactly four
values (whatever their type) is ingested with the four values assigned
to ymin, xmin, ymax, xmax in that order; and every risk entry is kept
in the report (ingestion preserves the list length). -/
theorem ingest_box_shape (j : Json) (now : String) (i : ℕ) (rs : List RawRisk)
    (h : isFourElemArray j = false) :
    ingestBox j = none ∧
    (∀ a b c d : Json, ingestBox (Json.arr [a, b, c, d]) = some (a, b, c, d)) ∧
    (ingestRisks now i rs).length = rs.length := by
  refine ⟨?_, fun a b c d => rfl, ?_⟩
  · cases j with
    | arr l =>
      rcases l with _ | ⟨a, _ | ⟨b, _ | ⟨c, _ | ⟨d, _ | ⟨e, tl⟩⟩⟩⟩⟩ <;>
        simp_all [ingestBox, isFourElemArray]
    | null => rfl
    | num q => rfl
    | str s => rfl
    | bool b => rfl
  · induction rs generalizing i with
    | nil => rfl
    | cons r rest ih => simp [ingestRisks, ih]

/-- C8 (amended) witness: a null box yields no region, a four-element
box is kept in order, and a two-entry payload ingests to two entries. -/
theorem ingest_box_shape_witness :
    ingestBox Json.null = none ∧
    ingestBox (Json.arr [Json.num 1, Json.num 2, Json.num 3, Json.num 4]) =
      some (Json.num 1, Json.num 2, Json.num 3, Json.num 4) ∧
    (ingestRisks "t" 0
        [{ type := Json.str "Email", description := Json.str "d",
           riskLevel := Json.str "HIGH", box_2d := Json.null },
         { type := Json.str "Name", description := Json.str "d2",
           riskLevel := Json.str "LOW", box_2d := Json.arr [] }]).length = 2 := by
  have h := ingest_box_shape Json.null "t" 0
    [{ type := Json.str "Email", description := Json.str "d",
       riskLevel := Json.str "HIGH", box_2d := Json.null },
     { type := Json.str "Name", description := Json.str "d2",
       riskLevel := Json.str "LOW", box_2d := Json.arr [] }] rfl
  exact ⟨h.1, h.2.1 (Json.num 1) (Json.num 2) (Json.num 3) (Json.num 4), h.2.2⟩

/-- The claim C9 states is false: when no 2D context is available the
export path returns at once without reporting any error (and without
completing), so no "clear reported error" is produced. -/
theorem export_no_ctx_silent_cex :
    (exportRedacted (fun _ img => img) (fun _ _ _ _ _ _ _ => false) false
        (fun _ _ => white) 1000 500 [] defaultFilters).isReported = false ∧
    (exportRedacted (fun _ img => img) (fun _ _ _ _ _ _ _ => false) false
        (fun _ _ => white) 1000 500 [] defaultFilters).isExported = false := by
  constructor <;> rfl

/-- C9 (amended): if the compositor cannot acquire a drawing surface,
the export is aborted — no raster is produced and the success callback
never runs — but the failure is silent: no error is reported on this or
any other path of the export routine. -/
theorem export_no_ctx_aborts (F : FilterSem) (T : TextSem) (src : Image)
    (cw ch : ℕ) (risks : List RiskItem) (filters : ImageFilters) :
    exportRedacted F T false src cw ch risks filters = ExportOutcome.aborted ∧
    ∀ ctxOk : Bool,
      (exportRedacted F T ctxOk src cw ch risks filters).isReported = false := by
  refine ⟨rfl, fun ctxOk => ?_⟩
  cases ctxOk <;> rfl

end Scanner
